import Mathlib

/-!
Shallow embedding of the trading core in src/worker/jupiter_trader.py:
quote acquisition with retry (get_quote), swap execution (execute_swap),
the buy and sell entry points (buy_token, sell_token), and the per-position
decision procedure of the position monitor (monitor_positions).

Modelling conventions: Python floats are rationals, Python None is Option,
a JSON object is an association list of string keys to scalar values, and
the outcome of each external I/O call (HTTP request, RPC call, backend
call) is an explicit environment parameter.  A Python exception raised by
a step is an Except.error carrying the exception text.
-/

namespace JupiterTrader

/-! ### JSON scalars and Python truthiness -/

/-- A JSON scalar as the code consumes it: a number or a string. -/
inductive JVal where
  | jnum (q : ℚ)
  | jstr (s : String)
deriving Repr, DecidableEq

/-- Python truthiness of a JSON scalar: a number is truthy iff it is
nonzero, a string iff it is nonempty. -/
def JVal.truthy : JVal → Bool
  | .jnum q => decide (q ≠ 0)
  | .jstr s => decide (s ≠ "")

/-- Truthiness of the result of dict.get: a missing key (None) is falsy. -/
def truthyOpt : Option JVal → Bool
  | none => false
  | some v => v.truthy

/-- Decimal digit run parser used to model the int() coercion of a string. -/
def parseNatDigits : List Char → Option ℕ
  | [] => none
  | cs =>
    cs.foldl
      (fun acc c =>
        match acc with
        | none => none
        | some n => if c.isDigit then some (n * 10 + (c.toNat - 48)) else none)
      (some 0)

/-- The int() coercion of a string: an optional sign followed by digits;
none models the ValueError Python raises on any other input. -/
def pyStrToInt (s : String) : Option ℤ :=
  match s.data with
  | [] => none
  | c :: rest =>
    if c = '-' then (parseNatDigits rest).map (fun n => -(n : ℤ))
    else (parseNatDigits (c :: rest)).map (fun n => (n : ℤ))

/-- Truncation toward zero, the int() coercion of a Python float. -/
def pyTrunc (q : ℚ) : ℤ := q.num.tdiv (q.den : ℤ)

/-- The int() coercion of a JSON scalar; none models a raised ValueError. -/
def JVal.pyInt : JVal → Option ℤ
  | .jnum q => some (pyTrunc q)
  | .jstr s => pyStrToInt s

/-! ### Quotes -/

/-- A Jupiter quote response, modelled as a JSON object. -/
abbrev Quote := List (String × JVal)

/-- Truthiness of the quote dict: nonempty. -/
def quoteTruthy (q : Quote) : Bool := !q.isEmpty

/-- quote.get("outAmount") -/
def quoteOutAmount (q : Quote) : Option JVal := q.lookup "outAmount"

/-- int(quote.get("outAmount", 0)), as the swap executor computes the
expected output; none models a raised ValueError. -/
def quoteOutAmountInt (q : Quote) : Option ℤ :=
  JVal.pyInt ((quoteOutAmount q).getD (JVal.jnum 0))

/-- The acceptance test of get_quote, line 279: if quote and
quote.get(outAmount) — both checks are Python truthiness. -/
def quoteAccepted (q : Quote) : Bool := quoteTruthy q && truthyOpt (quoteOutAmount q)

/-! ### get_quote (lines 233–289) -/

/-- Substring occurrence over character lists, used to model the Python
`in` test on strings. -/
def listStartsWith : List Char → List Char → Bool
  | [], _ => true
  | _ :: _, [] => false
  | a :: as, b :: bs => a = b && listStartsWith as bs

/-- listContains pat l is true iff pat occurs contiguously in l. -/
def listContains (pat : List Char) : List Char → Bool
  | [] => pat.isEmpty
  | b :: bs => listStartsWith pat (b :: bs) || listContains pat bs

/-- Line 272: the structured no-route / no-liquidity test on the error
message of a 400 response. -/
def isNoRouteMsg (msg : String) : Bool :=
  listContains ("No route found".data) msg.data ||
  listContains ("could not find".data) (msg.data.map Char.toLower)

/-- What one attempt of the quote HTTP request can produce:
a 400 response whose parsed body carries an error message, any raised
exception (network failure, raise_for_status on an error status, JSON
parse failure), or a 2xx response with a parsed quote body. -/
inductive AttemptOutcome where
  | http400 (errorMsg : String)
  | netError (msg : String)
  | okQuote (q : Quote)
deriving Repr, DecidableEq

/-- Result of a get_quote run: the returned value, the number of attempts
actually consumed, and the number of one-second backoff sleeps taken. -/
structure QuoteRun where
  result : Option Quote
  attemptsUsed : ℕ
  sleeps : ℕ
deriving Repr, DecidableEq

/-- get_quote over the trace of its attempts; the list length is the
configured retries count.  A 400 whose message matches the no-route test
returns None at once; a 400 with any other message falls through to
raise_for_status, whose exception — like any network error — is retried
after a 1-second sleep unless this was the last attempt; an accepted
quote is returned; a falsy quote body falls through to the next attempt
without sleeping.  An exhausted trace returns None. -/
def get_quote : List AttemptOutcome → QuoteRun
  | [] => ⟨none, 0, 0⟩
  | o :: rest =>
    match o with
    | .http400 msg =>
      if isNoRouteMsg msg then ⟨none, 1, 0⟩
      else
        let r := get_quote rest
        ⟨r.result, r.attemptsUsed + 1, r.sleeps + (if rest.isEmpty then 0 else 1)⟩
    | .netError _ =>
      let r := get_quote rest
      ⟨r.result, r.attemptsUsed + 1, r.sleeps + (if rest.isEmpty then 0 else 1)⟩
    | .okQuote q =>
      if quoteAccepted q then ⟨some q, 1, 0⟩
      else
        let r := get_quote rest
        ⟨r.result, r.attemptsUsed + 1, r.sleeps⟩

/-- An attempt outcome that does not terminate the retry loop. -/
def retryable (o : AttemptOutcome) : Prop :=
  (∃ m, o = AttemptOutcome.netError m) ∨
  (∃ m, o = AttemptOutcome.http400 m ∧ isNoRouteMsg m = false) ∨
  (∃ q, o = AttemptOutcome.okQuote q ∧ quoteAccepted q = false)

/-- An attempt that fails with an HTTP or network error (a raised
exception caught by the retry handler). -/
def httpOrNetFailure (o : AttemptOutcome) : Prop :=
  (∃ m, o = AttemptOutcome.netError m) ∨
  (∃ m, o = AttemptOutcome.http400 m ∧ isNoRouteMsg m = false)

/-! ### execute_swap (lines 308–390) -/

/-- Result record of a trade execution. -/
structure TradeResult where
  success : Bool
  signature : Option String := none
  error : Option String := none
  expected_output : Option ℤ := none
  tokens_received : Option ℤ := none
deriving Repr, DecidableEq

/-- Outcome of the confirmation wait: confirmed within the 60-second
bound, timed out (asyncio.TimeoutError, caught), or some other exception
raised by the RPC call (not caught locally). -/
inductive ConfirmOutcome where
  | confirmed
  | timedOut
  | raised (e : String)
deriving Repr, DecidableEq

/-- The swap-build HTTP response: status code, body text, and the
swapTransaction field of the parsed JSON body (an Except because
response.json() itself can raise; the Option is None when the field is
absent). -/
structure SwapHttpResp where
  status_code : ℤ
  text : String
  swapTransaction : Except String (Option String)
deriving Repr

/-- Environment of one execute_swap call: the outcome of each external
step in source order. -/
structure SwapEnv where
  rpcConnected : Bool
  connect : Except String Unit
  post : Except String SwapHttpResp
  decodeSign : Except String Unit
  send : Except String String
  confirm : ConfirmOutcome
deriving Repr

/-- The body of the try block of execute_swap: connect if needed, request
the swap transaction, check status and presence of the transaction,
decode and sign, submit, then wait for confirmation — where only a
timeout is caught; any other confirmation exception propagates.  The
returned TradeResult carries the signature and the expected output
int(quote.get("outAmount", 0)). -/
def execute_swap_inner (env : SwapEnv) (quote : Quote) : Except String TradeResult :=
  (if env.rpcConnected then Except.ok () else env.connect).bind fun _ =>
  env.post.bind fun resp =>
  if resp.status_code ≠ 200 then
    Except.ok { success := false,
                error := some ("Jupiter swap API error: " ++ String.mk (resp.text.data.take 100)) }
  else
    resp.swapTransaction.bind fun swapTx =>
    match swapTx with
    | none => Except.ok { success := false, error := some "No swap transaction returned from Jupiter" }
    | some tx =>
      if tx = "" then
        Except.ok { success := false, error := some "No swap transaction returned from Jupiter" }
      else
        env.decodeSign.bind fun _ =>
        env.send.bind fun sig =>
        (match env.confirm with
         | ConfirmOutcome.raised e => Except.error e
         | _ => Except.ok ()).bind fun _ =>
        match quoteOutAmountInt quote with
        | none => Except.error "invalid literal for int"
        | some amt =>
          Except.ok { success := true, signature := some sig,
                      expected_output := some amt, tokens_received := some amt }

/-- execute_swap: the whole body runs under one try; any escaping
exception is converted to a failure result carrying the exception text
(line 388–390).  The function therefore always returns a TradeResult. -/
def execute_swap (env : SwapEnv) (quote : Quote) : TradeResult :=
  match execute_swap_inner env quote with
  | Except.ok r => r
  | Except.error e => { success := false, error := some e }

/-! ### buy_token (lines 392–429) and sell_token (lines 431–474) -/

/-- A buy/sell run paired with the number of Quote Service calls it made. -/
structure TradeCall where
  result : TradeResult
  quote_calls : ℕ
deriving Repr, DecidableEq

/-- buy_token: fail fast when balance < amount_sol + 0.01 (fee reserve,
line 415) without requesting a quote; otherwise request one quote
(quoteResult is its outcome) and execute it. -/
def buy_token (balance amount_sol : ℚ) (quoteResult : Option Quote)
    (swap : Quote → TradeResult) : TradeCall :=
  let _lamports : ℤ := pyTrunc (amount_sol * 1000000000)
  if balance < amount_sol + 1 / 100 then
    { result := { success := false, error := some "Insufficient SOL balance" }, quote_calls := 0 }
  else
    match quoteResult with
    | none =>
      { result := { success := false, error := some "Failed to get Jupiter quote" }, quote_calls := 1 }
    | some q => { result := swap q, quote_calls := 1 }

/-- sell_token: fail fast when the token balance is unreadable (None) or
not positive, or when the integer sell amount (balance * percentage) // 100
is not positive; only otherwise request a quote and execute it. -/
def sell_token (token_amount : Option ℤ) (percentage : ℤ) (quoteResult : Option Quote)
    (swap : Quote → TradeResult) : TradeCall :=
  match token_amount with
  | none => { result := { success := false, error := some "No token balance found" }, quote_calls := 0 }
  | some t =>
    if t ≤ 0 then
      { result := { success := false, error := some "No token balance found" }, quote_calls := 0 }
    else
      let sell_amount := Int.fdiv (t * percentage) 100
      if sell_amount ≤ 0 then
        { result := { success := false, error := some "No tokens to sell" }, quote_calls := 0 }
      else
        match quoteResult with
        | none =>
          { result := { success := false, error := some "Failed to get Jupiter quote for sell" },
            quote_calls := 1 }
        | some q => { result := swap q, quote_calls := 1 }

/-! ### Position monitor (monitor_positions, lines 582–721) -/

/-- Trading configuration of a channel, with the dataclass defaults. -/
structure ChannelConfig where
  priority : String := "medium"
  allocation_sol : ℚ := 1 / 4
  stop_loss_pct : ℚ := -30
  take_profit_1_pct : ℚ := 100
  take_profit_2_pct : ℚ := 200
  trailing_stop_enabled : Bool := false
  trailing_stop_pct : ℚ := 15
  time_based_sell_enabled : Bool := false
  time_based_sell_minutes : Option ℤ := none
  auto_sell_enabled : Bool := true
deriving Repr, DecidableEq

/-- The default configuration used for unknown channels. -/
def cfgDefault : ChannelConfig := {}

/-- The fields of one open position as the monitor reads them from the
backend record (lines 600–610).  An Option field is none when the key is
absent, making pos.get fall back to its default.  time_based_sell_at is
none when unset or empty; some none when set but unparseable (the
fromisoformat exception is caught and logged); some (some t) when it
parses to the instant t. -/
structure Position where
  contract_address : String
  entry_price : Option ℚ
  status : String
  highest_price : Option ℚ
  auto_sell_enabled : Bool
  trailing_stop_enabled : Bool
  trailing_stop_pct : Option ℚ
  time_based_sell_at : Option (Option ℚ)
  stop_loss_pct : Option ℚ
  take_profit_1_pct : Option ℚ
  take_profit_2_pct : Option ℚ
deriving Repr, DecidableEq

/-- Line 638: pnl_pct, guarded against a non-positive entry price. -/
def pnlPct (entry current : ℚ) : ℚ :=
  if entry > 0 then (current - entry) / entry * 100 else 0

/-- Lines 641–643: the updated highest price; the first observation seeds
it, later ones replace it only when the current price is higher. -/
def newHighest (highest : Option ℚ) (current : ℚ) : ℚ :=
  match highest with
  | none => current
  | some h => if current > h then current else h

/-- Line 661: percentage drop from the (updated) highest price, guarded
against a non-positive high. -/
def dropFromHigh (nh current : ℚ) : ℚ :=
  if nh > 0 then (nh - current) / nh * 100 else 0

/-- Line 651: pos.get(stop_loss_pct, config.stop_loss_pct). -/
def effStopLoss (pos : Position) (cfg : ChannelConfig) : ℚ :=
  pos.stop_loss_pct.getD cfg.stop_loss_pct

/-- Lines 609 and 660: pos.get(trailing_stop_pct, 15.0), then Python
or-fallback to the channel value when that is falsy (zero). -/
def effTrailingPct (pos : Position) (cfg : ChannelConfig) : ℚ :=
  let t := pos.trailing_stop_pct.getD 15
  if t ≠ 0 then t else cfg.trailing_stop_pct

/-- Line 671: pos.get(take_profit_1_pct, config.take_profit_1_pct). -/
def effTakeProfit1 (pos : Position) (cfg : ChannelConfig) : ℚ :=
  pos.take_profit_1_pct.getD cfg.take_profit_1_pct

/-- Line 680: pos.get(take_profit_2_pct, config.take_profit_2_pct). -/
def effTakeProfit2 (pos : Position) (cfg : ChannelConfig) : ℚ :=
  pos.take_profit_2_pct.getD cfg.take_profit_2_pct

/-- The auto-sell action names of lines 653, 664, 673, 682, 692. -/
inductive SellAction where
  | stop_loss
  | trailing_stop
  | take_profit_1
  | take_profit_2
  | time_based
deriving Repr, DecidableEq

/-- Lines 650–685: the price-based arm chain (conditions 1–4).  Each arm
returns the action and the sell percentage; entering an arm whose inner
threshold test fails produces no action and, being an elif chain, skips
the later arms. -/
def priceAction (pos : Position) (cfg : ChannelConfig) (current : ℚ) : Option (SellAction × ℕ) :=
  let pnl := pnlPct (pos.entry_price.getD 0) current
  let nh := newHighest pos.highest_price current
  if pnl ≤ effStopLoss pos cfg then some (SellAction.stop_loss, 100)
  else if pos.trailing_stop_enabled = true ∧ nh ≠ 0 ∧ pnl > 0 then
    if dropFromHigh nh current ≥ effTrailingPct pos cfg then some (SellAction.trailing_stop, 100)
    else none
  else if pos.status = "bought" then
    if pnl ≥ effTakeProfit1 pos cfg then some (SellAction.take_profit_1, 50) else none
  else if pos.status = "partial_tp1" then
    if pnl ≥ effTakeProfit2 pos cfg then some (SellAction.take_profit_2, 100) else none
  else none

/-- Lines 688–697 on the time_based_sell_at field: unset or empty is
falsy and skipped; set but unparseable raises inside the local try and is
only logged; a parsed timestamp at or before now sells 100%. -/
def timeCheck (now : ℚ) : Option (Option ℚ) → Option (SellAction × ℕ)
  | none => none
  | some none => none
  | some (some t) => if now ≥ t then some (SellAction.time_based, 100) else none

/-- Lines 687–697: the independent time-based check, evaluated only when
no price-based arm fired. -/
def timeAction (pos : Position) (now : ℚ) : Option (SellAction × ℕ) :=
  timeCheck now pos.time_based_sell_at

/-- What one position evaluation produces: the price and highest price
reported to the backend (lines 699–705) and the selected action, if any,
with its sell percentage (lines 707–715). -/
structure MonitorDecision where
  current_price : ℚ
  pnl_pct : ℚ
  new_highest : ℚ
  action : Option SellAction
  sell_percentage : ℕ
deriving Repr, DecidableEq

/-- One position's evaluation at a given current price: run the price
arm chain, then the time-based check only when nothing fired. -/
def evalPosition (pos : Position) (cfg : ChannelConfig) (now current : ℚ) : MonitorDecision :=
  let act :=
    match priceAction pos cfg current with
    | some a => some a
    | none => timeAction pos now
  { current_price := current,
    pnl_pct := pnlPct (pos.entry_price.getD 0) current,
    new_highest := newHighest pos.highest_price current,
    action := act.map Prod.fst,
    sell_percentage := (act.map Prod.snd).getD 100 }

/-- Line 612: truthiness of the entry price (falsy when missing or 0). -/
def entryTruthy (pos : Position) : Bool :=
  match pos.entry_price with
  | none => false
  | some e => decide (e ≠ 0)

/-- Lines 612–634: the per-position guards — a falsy contract address or
entry price, auto-sell disabled, or no obtainable price (after the
quote-based fallback, abstracted into the current_price parameter) skip
the position with no report and no action. -/
def processPosition (pos : Position) (cfg : ChannelConfig) (now : ℚ)
    (current_price : Option ℚ) : Option MonitorDecision :=
  if pos.contract_address = "" then none
  else if entryTruthy pos = false then none
  else if pos.auto_sell_enabled = false then none
  else
    match current_price with
    | none => none
    | some c => some (evalPosition pos cfg now c)

/-- The trigger_auto_sell calls one position evaluation issues in one
cycle (lines 708–715): one call when an action was selected, else none. -/
def autoSellRequests (pos : Position) (cfg : ChannelConfig) (now c : ℚ) : List (SellAction × ℕ) :=
  match (evalPosition pos cfg now c).action with
  | some a => [(a, (evalPosition pos cfg now c).sell_percentage)]
  | none => []

/-- Lines 595–721: the body of one monitor cycle.  The try block wraps
the whole for-loop over positions; a step that raises aborts the loop,
the exception is caught and logged by the cycle-level handler (line 719),
and the function returns the results of the steps completed before the
raise together with the logged exception text. -/
def monitorCycle {α β : Type} (step : α → Except String β) : List α → List β × Option String
  | [] => ([], none)
  | p :: rest =>
    match step p with
    | Except.ok b =>
      let r := monitorCycle step rest
      (b :: r.1, r.2)
    | Except.error e => ([], some e)

/-! ### Trigger conditions, read off the arms of lines 650–685 -/

/-- Condition 1, stop loss: pnl_pct ≤ the effective stop-loss percent. -/
def stopLossTriggered (pos : Position) (cfg : ChannelConfig) (c : ℚ) : Prop :=
  pnlPct (pos.entry_price.getD 0) c ≤ effStopLoss pos cfg

/-- The guard of arm 2 (trailing enabled, truthy updated high, in profit);
entering it with a failing threshold test skips arms 3 and 4. -/
def trailingArmEntered (pos : Position) (c : ℚ) : Prop :=
  pos.trailing_stop_enabled = true ∧ newHighest pos.highest_price c ≠ 0 ∧
    pnlPct (pos.entry_price.getD 0) c > 0

/-- Condition 2, trailing stop: its arm guard plus the threshold test on
the drop from the updated high. -/
def trailingTriggered (pos : Position) (cfg : ChannelConfig) (c : ℚ) : Prop :=
  trailingArmEntered pos c ∧
    dropFromHigh (newHighest pos.highest_price c) c ≥ effTrailingPct pos cfg

/-- Condition 3, TP1: status bought and pnl at or above the threshold. -/
def tp1Triggered (pos : Position) (cfg : ChannelConfig) (c : ℚ) : Prop :=
  pos.status = "bought" ∧ pnlPct (pos.entry_price.getD 0) c ≥ effTakeProfit1 pos cfg

/-- Condition 4, TP2: status partial_tp1 and pnl at or above the threshold. -/
def tp2Triggered (pos : Position) (cfg : ChannelConfig) (c : ℚ) : Prop :=
  pos.status = "partial_tp1" ∧ pnlPct (pos.entry_price.getD 0) c ≥ effTakeProfit2 pos cfg

/-! ### Concrete instances used by the witnesses and counterexamples -/

/-- A bought position whose stop loss fires at half the entry price. -/
def posW1 : Position :=
  { contract_address := "MintA", entry_price := some 1, status := "bought",
    highest_price := none, auto_sell_enabled := true, trailing_stop_enabled := false,
    trailing_stop_pct := none, time_based_sell_at := none,
    stop_loss_pct := some (-25), take_profit_1_pct := none, take_profit_2_pct := none }

/-- A bought position at pnl 100% with TP1 at 100%, trailing enabled at
60% and a stored high of 4: at price 2 the drop from high is 50%, so the
trailing arm is entered but does not fire. -/
def posC2 : Position :=
  { contract_address := "MintB", entry_price := some 1, status := "bought",
    highest_price := some 4, auto_sell_enabled := true, trailing_stop_enabled := true,
    trailing_stop_pct := some 60, time_based_sell_at := none,
    stop_loss_pct := some (-25), take_profit_1_pct := some 100, take_profit_2_pct := none }

/-- posC2 with the trailing stop disabled, so TP1 can fire. -/
def posW2 : Position := { posC2 with trailing_stop_enabled := false }

/-- A flat bought position whose time-based timestamp has passed. -/
def posW3 : Position :=
  { contract_address := "MintC", entry_price := some 1, status := "bought",
    highest_price := none, auto_sell_enabled := true, trailing_stop_enabled := false,
    trailing_stop_pct := none, time_based_sell_at := some (some 5),
    stop_loss_pct := some (-25), take_profit_1_pct := some 100, take_profit_2_pct := none }

/-- A position with no stored high, trailing enabled at 15%. -/
def posW10 : Position :=
  { contract_address := "MintD", entry_price := some 1, status := "bought",
    highest_price := none, auto_sell_enabled := true, trailing_stop_enabled := true,
    trailing_stop_pct := some 15, time_based_sell_at := none,
    stop_loss_pct := some (-25), take_profit_1_pct := some 100, take_profit_2_pct := none }

/-- A per-position step that raises on position 2 and succeeds elsewhere. -/
def stepC5 : ℕ → Except String ℕ := fun n => if n = 2 then Except.error "boom" else Except.ok (n * 10)

/-- A per-position step that raises on position 0 and succeeds elsewhere. -/
def stepW5 : ℕ → Except String ℕ := fun n => if n = 0 then Except.error "down" else Except.ok n

/-- A quote whose outAmount is the string zero: truthy in Python, yet its
numeric value is 0. -/
def qZero : Quote := [("outAmount", JVal.jstr "0")]

/-- A quote with a positive string outAmount. -/
def qGood : Quote := [("outAmount", JVal.jstr "100")]

/-- A quote with numeric outAmount 42. -/
def qW8 : Quote := [("outAmount", JVal.jnum 42)]

/-- A 200 swap-build response carrying a transaction. -/
def respW : SwapHttpResp :=
  { status_code := 200, text := "", swapTransaction := Except.ok (some "B64") }

/-- An execute_swap environment where everything succeeds up to a
confirmation timeout. -/
def envW : SwapEnv :=
  { rpcConnected := true, connect := Except.ok (), post := Except.ok respW,
    decodeSign := Except.ok (), send := Except.ok "SIG", confirm := ConfirmOutcome.timedOut }

/-! ### Helper lemmas on the decision procedure -/

/-- When the price arm chain selects an action, the evaluation carries it
and its percentage. -/
theorem evalPosition_action_price (pos : Position) (cfg : ChannelConfig) (now c : ℚ)
    (a : SellAction) (p : ℕ) (hp : priceAction pos cfg c = some (a, p)) :
    (evalPosition pos cfg now c).action = some a ∧
    (evalPosition pos cfg now c).sell_percentage = p := by
  unfold evalPosition
  rw [hp]
  exact ⟨rfl, rfl⟩

/-- When no price arm fires, the selected action is the time-based one. -/
theorem evalPosition_action_time (pos : Position) (cfg : ChannelConfig) (now c : ℚ)
    (hp : priceAction pos cfg c = none) :
    (evalPosition pos cfg now c).action = (timeAction pos now).map Prod.fst ∧
    (evalPosition pos cfg now c).sell_percentage = ((timeAction pos now).map Prod.snd).getD 100 := by
  unfold evalPosition
  rw [hp]
  exact ⟨rfl, rfl⟩

/-- The price arm chain only produces the four price-based actions, each
with its fixed percentage. -/
theorem priceAction_cases (pos : Position) (cfg : ChannelConfig) (c : ℚ)
    (a : SellAction) (p : ℕ) (hp : priceAction pos cfg c = some (a, p)) :
    (a = SellAction.stop_loss ∧ p = 100) ∨ (a = SellAction.trailing_stop ∧ p = 100) ∨
    (a = SellAction.take_profit_1 ∧ p = 50) ∨ (a = SellAction.take_profit_2 ∧ p = 100) := by
  unfold priceAction at hp
  by_cases h1 : pnlPct (pos.entry_price.getD 0) c ≤ effStopLoss pos cfg <;>
    by_cases h2 : pos.trailing_stop_enabled = true ∧
      ¬ newHighest pos.highest_price c = 0 ∧ 0 < pnlPct (pos.entry_price.getD 0) c <;>
    by_cases h3 : effTrailingPct pos cfg ≤ dropFromHigh (newHighest pos.highest_price c) c <;>
    by_cases h4 : pos.status = "bought" <;>
    by_cases h5 : pos.status = "partial_tp1" <;>
    by_cases h6 : effTakeProfit1 pos cfg ≤ pnlPct (pos.entry_price.getD 0) c <;>
    by_cases h7 : effTakeProfit2 pos cfg ≤ pnlPct (pos.entry_price.getD 0) c <;>
    simp [h1, h2, h3, h4, h5, h6, h7] at hp <;> simp_all

/-- A value produced by the time-based check is the time-based 100% sell,
and requires a set, parsed timestamp at or before now. -/
theorem timeAction_cases (pos : Position) (now : ℚ) (a : SellAction) (p : ℕ)
    (h : timeAction pos now = some (a, p)) :
    a = SellAction.time_based ∧ p = 100 ∧
    ∃ t, pos.time_based_sell_at = some (some t) ∧ now ≥ t := by
  unfold timeAction at h
  rcases ht : pos.time_based_sell_at with _ | (_ | t) <;> rw [ht] at h <;>
    simp only [timeCheck] at h
  · exact absurd h (by simp)
  · exact absurd h (by simp)
  · split_ifs at h with hn
    simp at h
    exact ⟨h.1.symm, h.2.symm, t, rfl, hn⟩

/-- A trailing-stop fire of the price arm chain requires the full
trailing trigger condition. -/
theorem priceAction_trailing_fired (pos : Position) (cfg : ChannelConfig) (c : ℚ) (p : ℕ)
    (hp : priceAction pos cfg c = some (SellAction.trailing_stop, p)) :
    trailingTriggered pos cfg c := by
  unfold priceAction at hp
  unfold trailingTriggered trailingArmEntered
  by_cases h1 : pnlPct (pos.entry_price.getD 0) c ≤ effStopLoss pos cfg <;>
    by_cases h2 : pos.trailing_stop_enabled = true ∧
      ¬ newHighest pos.highest_price c = 0 ∧ 0 < pnlPct (pos.entry_price.getD 0) c <;>
    by_cases h3 : effTrailingPct pos cfg ≤ dropFromHigh (newHighest pos.highest_price c) c <;>
    by_cases h4 : pos.status = "bought" <;>
    by_cases h5 : pos.status = "partial_tp1" <;>
    by_cases h6 : effTakeProfit1 pos cfg ≤ pnlPct (pos.entry_price.getD 0) c <;>
    by_cases h7 : effTakeProfit2 pos cfg ≤ pnlPct (pos.entry_price.getD 0) c <;>
    simp [h1, h2, h3, h4, h5, h6, h7] at hp <;>
    exact ⟨h2, h3⟩

/-- Under the guards, processPosition evaluates the position. -/
theorem processPosition_eval (pos : Position) (cfg : ChannelConfig) (now c : ℚ)
    (hcontract : ¬ pos.contract_address = "")
    (hentry : entryTruthy pos = true)
    (hauto : pos.auto_sell_enabled = true) :
    processPosition pos cfg now (some c) = some (evalPosition pos cfg now c) := by
  unfold processPosition
  rw [if_neg hcontract, if_neg (by simp [hentry]), if_neg (by simp [hauto])]

/-! ### Claims -/

/-- Claim C1: one position evaluation requests at most one sell action per
cycle, and whenever several of the four price-based trigger conditions
hold simultaneously, the fired action is the highest-priority one in the
order stop-loss, trailing-stop, TP1, TP2.  The three priority conjuncts
cover every simultaneous combination: any set containing stop-loss fires
stop-loss; without stop-loss, any set containing trailing-stop fires
trailing-stop; and TP1 and TP2 can never hold together because their
status guards differ. -/
theorem monitor_priority_order (pos : Position) (cfg : ChannelConfig) (now c : ℚ) :
    (autoSellRequests pos cfg now c).length ≤ 1 ∧
    (stopLossTriggered pos cfg c →
      (evalPosition pos cfg now c).action = some SellAction.stop_loss) ∧
    (¬ stopLossTriggered pos cfg c → trailingTriggered pos cfg c →
      (evalPosition pos cfg now c).action = some SellAction.trailing_stop) ∧
    ¬ (tp1Triggered pos cfg c ∧ tp2Triggered pos cfg c) := by
  refine ⟨?_, ?_, ?_, ?_⟩
  · unfold autoSellRequests
    cases (evalPosition pos cfg now c).action <;> simp
  · intro h
    unfold stopLossTriggered at h
    have hp : priceAction pos cfg c = some (SellAction.stop_loss, 100) := by
      simp only [priceAction]
      rw [if_pos h]
    exact (evalPosition_action_price pos cfg now c _ _ hp).1
  · intro hns ht
    unfold stopLossTriggered at hns
    obtain ⟨harm, hdrop⟩ := ht
    unfold trailingArmEntered at harm
    have hp : priceAction pos cfg c = some (SellAction.trailing_stop, 100) := by
      simp only [priceAction]
      rw [if_neg hns, if_pos harm, if_pos hdrop]
    exact (evalPosition_action_price pos cfg now c _ _ hp).1
  · rintro ⟨⟨h1, _⟩, ⟨h2, _⟩⟩
    rw [h1] at h2
    exact absurd h2 (by decide)

/-- Witness for C1 at a concrete stop-loss hit: entry 1, price 1/2,
stop loss at -25%, so pnl = -50% triggers and the fired action is the
stop loss. -/
theorem monitor_priority_order_witness :
    stopLossTriggered posW1 cfgDefault (1 / 2) ∧
    (evalPosition posW1 cfgDefault 0 (1 / 2)).action = some SellAction.stop_loss := by
  have hsl : stopLossTriggered posW1 cfgDefault (1 / 2) := by
    simp [stopLossTriggered, pnlPct, effStopLoss, posW1, cfgDefault]
    norm_num
  exact ⟨hsl, (monitor_priority_order posW1 cfgDefault 0 (1 / 2)).2.1 hsl⟩

/-- Claim C4: the highest price the monitor reports to the backend is the
one computed at lines 641–643: it equals max of the stored highest price
and the current price, the first observation seeds it, and it never falls
below the stored value, so across consecutive cycles the reported value
is monotonically non-decreasing. -/
theorem highest_price_reported_max (pos : Position) (cfg : ChannelConfig) (now c : ℚ) :
    (evalPosition pos cfg now c).new_highest = newHighest pos.highest_price c ∧
    (∀ h : ℚ, newHighest (some h) c = max h c) ∧
    newHighest none c = c ∧
    (∀ h : ℚ, h ≤ newHighest (some h) c) := by
  refine ⟨rfl, ?_, rfl, ?_⟩
  · intro h
    simp only [newHighest]
    rcases lt_or_le h c with hlt | hle
    · rw [if_pos hlt]
      exact (max_eq_right hlt.le).symm
    · rw [if_neg (not_lt.mpr hle)]
      exact (max_eq_left hle).symm
  · intro h
    simp only [newHighest]
    split_ifs with hlt
    · exact hlt.le
    · exact le_refl h

/-- Claim C10: when the current price strictly exceeds the stored highest
price, or no highest price is stored yet, the drop from the just-updated
high is zero, so the trailing stop cannot fire in that cycle as long as
the effective trailing threshold is positive. -/
theorem trailing_skip_at_new_high (pos : Position) (cfg : ChannelConfig) (now c : ℚ)
    (hhigh : pos.highest_price = none ∨ ∃ h, pos.highest_price = some h ∧ c > h)
    (hpct : 0 < effTrailingPct pos cfg) :
    (evalPosition pos cfg now c).action ≠ some SellAction.trailing_stop := by
  have hnh : newHighest pos.highest_price c = c := by
    rcases hhigh with h | ⟨h, hh, hc⟩
    · rw [h]; rfl
    · rw [hh]
      simp only [newHighest]
      rw [if_pos hc]
  have hdrop : dropFromHigh (newHighest pos.highest_price c) c = 0 := by
    rw [hnh]
    unfold dropFromHigh
    split_ifs with hc
    · rw [sub_self, zero_div, zero_mul]
    · rfl
  intro hcontra
  rcases hp : priceAction pos cfg c with _ | ⟨a, p⟩
  · have he := (evalPosition_action_time pos cfg now c hp).1
    rw [he] at hcontra
    rcases hta : timeAction pos now with _ | ⟨a, p⟩ <;> rw [hta] at hcontra
    · simp at hcontra
    · simp at hcontra
      obtain ⟨hta2, -, -⟩ := timeAction_cases pos now a p hta
      rw [hta2] at hcontra
      exact absurd hcontra (by decide)
  · have he := (evalPosition_action_price pos cfg now c a p hp).1
    rw [he] at hcontra
    injection hcontra with ha
    subst ha
    have ht := priceAction_trailing_fired pos cfg c p hp
    have hd := ht.2
    rw [hdrop] at hd
    exact absurd (hpct.trans_le hd) (lt_irrefl 0)

/-- Witness for C10: a position with no stored high, trailing enabled at
15%, evaluated at price 2 — the trailing stop does not fire. -/
theorem trailing_skip_at_new_high_witness :
    0 < effTrailingPct posW10 cfgDefault ∧
    (evalPosition posW10 cfgDefault 0 2).action ≠ some SellAction.trailing_stop := by
  have hpct : 0 < effTrailingPct posW10 cfgDefault := by
    norm_num [effTrailingPct, posW10, cfgDefault]
  exact ⟨hpct, trailing_skip_at_new_high posW10 cfgDefault 0 2 (Or.inl rfl) hpct⟩

/-- Counterexample to claim C2 as stated: position posC2 passes every
guard, its stop loss does not trigger, its trailing stop does not
trigger (drop from high 50% is below the 60% threshold), its status is
bought and pnl_pct = 100 equals the effective TP1 threshold — yet no
action fires in the cycle, because the elif chain entered the trailing
arm and skipped the TP1 check. -/
theorem tp1_skipped_counterexample :
    posC2.contract_address ≠ "" ∧
    entryTruthy posC2 = true ∧
    posC2.auto_sell_enabled = true ∧
    ¬ stopLossTriggered posC2 cfgDefault 2 ∧
    ¬ trailingTriggered posC2 cfgDefault 2 ∧
    tp1Triggered posC2 cfgDefault 2 ∧
    processPosition posC2 cfgDefault 0 (some 2) = some (evalPosition posC2 cfgDefault 0 2) ∧
    (evalPosition posC2 cfgDefault 0 2).action = none := by
  refine ⟨by decide, by decide, rfl, ?_, ?_, ?_, ?_, ?_⟩
  · norm_num [stopLossTriggered, pnlPct, effStopLoss, posC2, cfgDefault]
  · norm_num [trailingTriggered, trailingArmEntered, newHighest, dropFromHigh, pnlPct,
      effTrailingPct, posC2, cfgDefault]
  · exact ⟨rfl, by norm_num [pnlPct, effTakeProfit1, posC2, cfgDefault]⟩
  · exact processPosition_eval posC2 cfgDefault 0 2 (by decide) (by decide) rfl
  · norm_num [evalPosition, priceAction, timeAction, timeCheck, newHighest, dropFromHigh,
      pnlPct, effStopLoss, effTrailingPct, effTakeProfit1, effTakeProfit2, posC2, cfgDefault]

/-- Claim C2 amended: TP1 fires with a 50% sell for a guarded bought
position whose pnl reaches the effective TP1 threshold, provided the stop
loss did not trigger and the trailing-stop arm was not even entered
(trailing disabled, or zero updated high, or pnl not positive) — entering
that arm without firing skips the TP1 check entirely. -/
theorem tp1_fires_outside_trailing_arm (pos : Position) (cfg : ChannelConfig) (now c : ℚ)
    (hcontract : ¬ pos.contract_address = "")
    (hentry : entryTruthy pos = true)
    (hauto : pos.auto_sell_enabled = true)
    (hsl : ¬ stopLossTriggered pos cfg c)
    (harm : ¬ trailingArmEntered pos c)
    (hst : pos.status = "bought")
    (htp : pnlPct (pos.entry_price.getD 0) c ≥ effTakeProfit1 pos cfg) :
    processPosition pos cfg now (some c) = some (evalPosition pos cfg now c) ∧
    (evalPosition pos cfg now c).action = some SellAction.take_profit_1 ∧
    (evalPosition pos cfg now c).sell_percentage = 50 := by
  have hp : priceAction pos cfg c = some (SellAction.take_profit_1, 50) := by
    unfold stopLossTriggered at hsl
    unfold trailingArmEntered at harm
    simp only [priceAction]
    rw [if_neg hsl, if_neg harm, if_pos hst, if_pos htp]
  obtain ⟨h1, h2⟩ := evalPosition_action_price pos cfg now c _ _ hp
  exact ⟨processPosition_eval pos cfg now c hcontract hentry hauto, h1, h2⟩

/-- Witness for the amended C2: posC2 with trailing disabled does fire
TP1 with a 50% sell at price 2. -/
theorem tp1_fires_outside_trailing_arm_witness :
    processPosition posW2 cfgDefault 0 (some 2) = some (evalPosition posW2 cfgDefault 0 2) ∧
    (evalPosition posW2 cfgDefault 0 2).action = some SellAction.take_profit_1 ∧
    (evalPosition posW2 cfgDefault 0 2).sell_percentage = 50 := by
  apply tp1_fires_outside_trailing_arm
  · decide
  · decide
  · rfl
  · norm_num [stopLossTriggered, pnlPct, effStopLoss, posW2, posC2, cfgDefault]
  · norm_num [trailingArmEntered, posW2, posC2]
  · rfl
  · norm_num [pnlPct, effTakeProfit1, posW2, posC2, cfgDefault]

/-- Claim C3: the time-based exit fires only when no price-based arm
fired in the same cycle and only when a time_based_sell_at timestamp is
set, parses, and now is at or past it; when it fires the sell is 100%. -/
theorem time_based_exit_independent (pos : Position) (cfg : ChannelConfig) (now c : ℚ)
    (h : (evalPosition pos cfg now c).action = some SellAction.time_based) :
    priceAction pos cfg c = none ∧
    (∃ t, pos.time_based_sell_at = some (some t) ∧ now ≥ t) ∧
    (evalPosition pos cfg now c).sell_percentage = 100 := by
  rcases hp : priceAction pos cfg c with _ | ⟨a, p⟩
  · obtain ⟨h1, h2⟩ := evalPosition_action_time pos cfg now c hp
    rw [h1] at h
    rcases hta : timeAction pos now with _ | ⟨a, p⟩ <;> rw [hta] at h
    · simp at h
    · obtain ⟨ha, hp100, t, ht, hnt⟩ := timeAction_cases pos now a p hta
      refine ⟨rfl, ⟨t, ht, hnt⟩, ?_⟩
      rw [h2, hta]
      simp [hp100]
  · exfalso
    obtain ⟨h1, -⟩ := evalPosition_action_price pos cfg now c a p hp
    rw [h1] at h
    injection h with h
    subst h
    rcases priceAction_cases pos cfg c _ p hp with ⟨h2, -⟩ | ⟨h2, -⟩ | ⟨h2, -⟩ | ⟨h2, -⟩ <;>
      exact absurd h2 (by decide)

/-- Witness for C3: posW3 fires the time-based exit at now = 10 past its
timestamp 5; no price arm fired and the sell is 100%. -/
theorem time_based_exit_independent_witness :
    priceAction posW3 cfgDefault 1 = none ∧
    (evalPosition posW3 cfgDefault 10 1).sell_percentage = 100 := by
  have h : (evalPosition posW3 cfgDefault 10 1).action = some SellAction.time_based := by
    norm_num [evalPosition, priceAction, timeAction, timeCheck, pnlPct, newHighest,
      effStopLoss, effTakeProfit1, effTakeProfit2, posW3, cfgDefault]
  have hall := time_based_exit_independent posW3 cfgDefault 10 1 h
  exact ⟨hall.1, hall.2.2⟩

/-- Counterexample to claim C5 as stated: in a cycle over positions
1, 2, 3 where evaluating position 2 raises, position 3 — whose own
evaluation succeeds — is not processed: the exception is caught at the
cycle level, not the position boundary, so it aborts the rest of the
cycle. -/
theorem per_position_exception_counterexample :
    stepC5 3 = Except.ok 30 ∧
    monitorCycle stepC5 [1, 2, 3] = ([10], some "boom") := by
  exact ⟨rfl, rfl⟩

/-- Claim C5 amended: a per-position exception is caught (and logged) at
the monitor-cycle level, never propagated out of the cycle; the positions
before the failing one are processed, and the failing position and every
later position of that cycle are skipped. Conversely a cycle whose steps
all succeed processes every position. -/
theorem monitor_cycle_exception_boundary {α β : Type} (step : α → Except String β) :
    (∀ (pre : List α) (x : α) (post : List α) (e : String),
        (∀ p ∈ pre, ∃ b, step p = Except.ok b) → step x = Except.error e →
        (monitorCycle step (pre ++ x :: post)).2 = some e ∧
        (monitorCycle step (pre ++ x :: post)).1.length = pre.length) ∧
    (∀ l : List α, (∀ p ∈ l, ∃ b, step p = Except.ok b) →
        (monitorCycle step l).2 = none ∧
        (monitorCycle step l).1.length = l.length) := by
  constructor
  · intro pre x post e hpre hx
    induction pre with
    | nil => simp [monitorCycle, hx]
    | cons a as ih =>
      obtain ⟨b, hb⟩ := hpre a (List.mem_cons_self a as)
      have hrest := ih (fun p hp => hpre p (List.mem_cons_of_mem a hp))
      simp [monitorCycle, hb, hrest.1, hrest.2]
  · intro l hl
    induction l with
    | nil => exact ⟨rfl, rfl⟩
    | cons a as ih =>
      obtain ⟨b, hb⟩ := hl a (List.mem_cons_self a as)
      have hrest := ih (fun p hp => hl p (List.mem_cons_of_mem a hp))
      simp [monitorCycle, hb, hrest.1, hrest.2]

/-- Witness for the amended C5: with a step that raises on position 0,
the cycle over 1, 0, 5 logs the exception and processes exactly the one
position before it. -/
theorem monitor_cycle_exception_boundary_witness :
    (monitorCycle stepW5 [1, 0, 5]).2 = some "down" ∧
    (monitorCycle stepW5 [1, 0, 5]).1.length = 1 := by
  have h := (monitor_cycle_exception_boundary stepW5).1 [1] 0 [5] "down"
    (by intro p hp; simp at hp; subst hp; exact ⟨1, rfl⟩) rfl
  simpa using h

/-- Claim C6: an attempt receiving a structured no-route 400 makes
get_quote return None at once, consuming exactly that one attempt with no
later attempts; whereas a trace of nothing but HTTP/network failures
consumes every configured attempt, sleeping the fixed 1-second backoff
between consecutive attempts, and returns None. -/
theorem get_quote_retry_policy :
    (∀ (pre : List AttemptOutcome) (m : String) (post : List AttemptOutcome),
        (∀ o ∈ pre, retryable o) → isNoRouteMsg m = true →
        (get_quote (pre ++ AttemptOutcome.http400 m :: post)).result = none ∧
        (get_quote (pre ++ AttemptOutcome.http400 m :: post)).attemptsUsed = pre.length + 1) ∧
    (∀ l : List AttemptOutcome, (∀ o ∈ l, httpOrNetFailure o) →
        (get_quote l).result = none ∧
        (get_quote l).attemptsUsed = l.length ∧
        (get_quote l).sleeps = l.length - 1) := by
  constructor
  · intro pre m post hpre hm
    induction pre with
    | nil => simp [get_quote, hm]
    | cons o os ih =>
      have hrest := ih (fun p hp => hpre p (List.mem_cons_of_mem o hp))
      rcases hpre o (List.mem_cons_self o os) with ⟨w, rfl⟩ | ⟨w, rfl, hw⟩ | ⟨w, rfl, hw⟩
      · simp [get_quote, hrest.1, hrest.2]
      · simp [get_quote, hw, hrest.1, hrest.2]
      · simp [get_quote, hw, hrest.1, hrest.2]
  · intro l hl
    induction l with
    | nil => exact ⟨rfl, rfl, rfl⟩
    | cons o os ih =>
      have hrest := ih (fun p hp => hl p (List.mem_cons_of_mem o hp))
      have hcons : (get_quote (o :: os)).result = (get_quote os).result ∧
          (get_quote (o :: os)).attemptsUsed = (get_quote os).attemptsUsed + 1 ∧
          (get_quote (o :: os)).sleeps =
            (get_quote os).sleeps + (if os.isEmpty then 0 else 1) := by
        rcases hl o (List.mem_cons_self o os) with ⟨w, rfl⟩ | ⟨w, rfl, hw⟩
        · exact ⟨rfl, rfl, rfl⟩
        · simp [get_quote, hw]
      refine ⟨hcons.1.trans hrest.1, ?_, ?_⟩
      · rw [hcons.2.1, hrest.2.1]
        simp
      · rw [hcons.2.2, hrest.2.2]
        cases os with
        | nil => simp
        | cons b bs => simp

/-- Witness for C6: a network error followed by a no-route 400 consumes
two attempts and returns None; three straight network errors consume all
three attempts with two backoff sleeps. -/
theorem get_quote_retry_policy_witness :
    (get_quote [AttemptOutcome.netError "timeout", AttemptOutcome.http400 "No route found"]).result
      = none ∧
    (get_quote [AttemptOutcome.netError "timeout",
      AttemptOutcome.http400 "No route found"]).attemptsUsed = 2 ∧
    (get_quote [AttemptOutcome.netError "a", AttemptOutcome.netError "b",
      AttemptOutcome.netError "c"]).attemptsUsed = 3 ∧
    (get_quote [AttemptOutcome.netError "a", AttemptOutcome.netError "b",
      AttemptOutcome.netError "c"]).sleeps = 2 := by
  have h1 := get_quote_retry_policy.1 [AttemptOutcome.netError "timeout"] "No route found" []
    (by intro o ho; simp at ho; subst ho; exact Or.inl ⟨"timeout", rfl⟩) (by decide)
  have h2 := get_quote_retry_policy.2
    [AttemptOutcome.netError "a", AttemptOutcome.netError "b", AttemptOutcome.netError "c"]
    (by intro o ho; simp at ho
        rcases ho with h | h | h <;> subst h <;> exact Or.inl ⟨_, rfl⟩)
  exact ⟨h1.1, h1.2, h2.2.1, h2.2.2⟩

/-- Counterexample to claim C7 as stated: a quote whose outAmount is the
string zero is truthy in Python, so get_quote returns it to the caller —
yet its numeric output amount, as every caller computes it with int(), is
0, not strictly positive. -/
theorem positive_out_amount_counterexample :
    (get_quote [AttemptOutcome.okQuote qZero]).result = some qZero ∧
    quoteOutAmountInt qZero = some 0 := by
  exact ⟨rfl, rfl⟩

/-- Claim C7 amended: whenever get_quote returns a quote, that quote is a
truthy (nonempty) object whose outAmount field is present and truthy — a
nonzero number or a nonempty string.  Truthiness does not imply strict
positivity: the nonempty string zero and negative numbers pass the test. -/
theorem get_quote_result_truthy_out (l : List AttemptOutcome) (q : Quote)
    (h : (get_quote l).result = some q) :
    quoteTruthy q = true ∧ ∃ v, quoteOutAmount q = some v ∧ JVal.truthy v = true := by
  induction l with
  | nil => simp [get_quote] at h
  | cons o rest ih =>
    cases o with
    | http400 m =>
      by_cases hm : isNoRouteMsg m = true
      · simp [get_quote, hm] at h
      · simp [get_quote, hm] at h
        exact ih h
    | netError m =>
      simp [get_quote] at h
      exact ih h
    | okQuote qa =>
      by_cases hacc : quoteAccepted qa = true
      · simp [get_quote, hacc] at h
        subst h
        have hq := hacc
        unfold quoteAccepted at hq
        rw [Bool.and_eq_true] at hq
        rcases hv : quoteOutAmount qa with _ | v
        · rw [hv] at hq
          exact absurd hq.2 (by simp [truthyOpt])
        · rw [hv] at hq
          exact ⟨hq.1, v, rfl, hq.2⟩
      · simp [get_quote, hacc] at h
        exact ih h

/-- Witness for the amended C7: a successful attempt carrying outAmount
as the string 100 is returned, and it is truthy with a truthy outAmount. -/
theorem get_quote_result_truthy_out_witness :
    quoteTruthy qGood = true ∧
    ∃ v, quoteOutAmount qGood = some v ∧ JVal.truthy v = true := by
  exact get_quote_result_truthy_out [AttemptOutcome.okQuote qGood] qGood rfl

/-- Claim C8: execute_swap never lets an exception escape — every raise
inside the try body becomes a failure result carrying the exception text
(shown both abstractly for any raising run and concretely for the swap
request raising); and a run that reached submission and then timed out
waiting for confirmation still returns success with the obtained
signature and the quote's expected output. -/
theorem execute_swap_result_boundary :
    (∀ (env : SwapEnv) (q : Quote) (e : String),
        execute_swap_inner env q = Except.error e →
        execute_swap env q = { success := false, error := some e }) ∧
    (∀ (env : SwapEnv) (q : Quote) (e : String),
        env.rpcConnected = true → env.post = Except.error e →
        execute_swap env q = { success := false, error := some e }) ∧
    (∀ (env : SwapEnv) (q : Quote) (resp : SwapHttpResp) (tx sig : String) (amt : ℤ),
        env.rpcConnected = true →
        env.post = Except.ok resp →
        resp.status_code = 200 →
        resp.swapTransaction = Except.ok (some tx) →
        tx ≠ "" →
        env.decodeSign = Except.ok () →
        env.send = Except.ok sig →
        env.confirm = ConfirmOutcome.timedOut →
        quoteOutAmountInt q = some amt →
        execute_swap env q = { success := true, signature := some sig,
                               expected_output := some amt, tokens_received := some amt }) := by
  refine ⟨?_, ?_, ?_⟩
  · intro env q e h
    unfold execute_swap
    rw [h]
  · intro env q e hrpc hpost
    unfold execute_swap execute_swap_inner
    rw [hrpc, hpost]
    rfl
  · intro env q resp tx sig amt hrpc hpost hstatus htx htxne hdec hsend hconf hamt
    simp [execute_swap, execute_swap_inner, Except.bind, hrpc, hpost, hstatus, htx, htxne,
      hdec, hsend, hconf, hamt]

/-- Witness for C8 at the confirmation-timeout path: all steps succeed,
confirmation times out, and the result is success with the signature and
output amount 42. -/
theorem execute_swap_result_boundary_witness :
    execute_swap envW qW8 = { success := true, signature := some "SIG",
                              expected_output := some 42, tokens_received := some 42 } := by
  refine execute_swap_result_boundary.2.2 envW qW8 respW "B64" "SIG" 42 rfl rfl rfl rfl
    (by decide) rfl rfl rfl ?_
  show quoteOutAmountInt qW8 = some 42
  norm_num [quoteOutAmountInt, quoteOutAmount, qW8, JVal.pyInt, pyTrunc]

/-- Claim C9: the precondition failures fail fast without a Quote Service
call — buy_token with balance below amount_sol + 0.01, and sell_token
with an unreadable (None) balance, a non-positive balance, or a computed
sell amount (balance * percentage) // 100 of zero or less. -/
theorem precondition_failures_skip_quote :
    (∀ (balance amount_sol : ℚ) (qr : Option Quote) (swap : Quote → TradeResult),
        balance < amount_sol + 1 / 100 →
        (buy_token balance amount_sol qr swap).result.success = false ∧
        (buy_token balance amount_sol qr swap).quote_calls = 0) ∧
    (∀ (pct : ℤ) (qr : Option Quote) (swap : Quote → TradeResult),
        (sell_token none pct qr swap).result.success = false ∧
        (sell_token none pct qr swap).quote_calls = 0) ∧
    (∀ (t pct : ℤ) (qr : Option Quote) (swap : Quote → TradeResult), t ≤ 0 →
        (sell_token (some t) pct qr swap).result.success = false ∧
        (sell_token (some t) pct qr swap).quote_calls = 0) ∧
    (∀ (t pct : ℤ) (qr : Option Quote) (swap : Quote → TradeResult),
        0 < t → Int.fdiv (t * pct) 100 ≤ 0 →
        (sell_token (some t) pct qr swap).result.success = false ∧
        (sell_token (some t) pct qr swap).quote_calls = 0) := by
  refine ⟨?_, ?_, ?_, ?_⟩
  · intro balance amount_sol qr swap h
    simp only [buy_token]
    rw [if_pos h]
    exact ⟨rfl, rfl⟩
  · intro pct qr swap
    simp only [sell_token]
    constructor <;> trivial
  · intro t pct qr swap h
    simp only [sell_token]
    rw [if_pos h]
    exact ⟨rfl, rfl⟩
  · intro t pct qr swap ht h
    simp only [sell_token]
    rw [if_neg (not_le.mpr ht), if_pos h]
    exact ⟨rfl, rfl⟩

/-- Witness for C9: a buy with zero balance and a sell of percentage 0 on
a balance of 5 both fail with no quote call. -/
theorem precondition_failures_skip_quote_witness :
    ((buy_token 0 1 none (fun _ => { success := false })).result.success = false ∧
      (buy_token 0 1 none (fun _ => { success := false })).quote_calls = 0) ∧
    ((sell_token (some 5) 0 none (fun _ => { success := false })).result.success = false ∧
      (sell_token (some 5) 0 none (fun _ => { success := false })).quote_calls = 0) := by
  constructor
  · exact precondition_failures_skip_quote.1 0 1 none (fun _ => { success := false })
      (by norm_num)
  · exact precondition_failures_skip_quote.2.2.2 5 0 none (fun _ => { success := false })
      (by norm_num) (by decide)

end JupiterTrader
